import Mathlib

/-!
Verification development for the grade-portal application (src/app.py).

The embedding is shallow and stays as close to the Python source as Lean
allows:

* `Grade`, `Link` mirror the SQLAlchemy models.  Numeric score columns
  (SQL `Float`) are modelled as rationals `ℚ`, the standard exact model of
  the real-valued arithmetic the handlers perform.  `created_at` holds an
  ISO-8601 UTC timestamp string in the source; such strings compare
  lexicographically exactly in chronological order, so it is modelled as a
  totally ordered tick count `Nat`.  `id` is the integer surrogate key.
* Python `sorted(..., key=k)` and SQL `ORDER BY` are embedded as
  `List.insertionSort` with the corresponding total preorder; Python
  `sorted` is stable and so is `insertionSort`.
* Thresholds `PASSING_SCORE`, `RISK_LOW_SCORE` and `RISK_DROP_POINTS` are
  read from the environment with defaults 75, 70 and 10; the embedded
  functions take them as explicit parameters and the default constants are
  provided separately.
* Form input fields arrive as strings and are parsed by Python `float`; a
  numeric field is modelled as `Option ℚ`: `some n` when the text parses
  to the number `n`, `none` when parsing fails (`float(v)` raises
  `ValueError`).  Functions that raise `ValueError` are modelled in
  `Except String`.
* Python `str.strip()` is modelled by `pyStrip` (drop whitespace at both
  ends).  The search filter `ilike("%" + search + "%")` interpolates the
  raw search string into the pattern, so `ciContains` is full SQL `LIKE`
  matching (`likeMatch`): `%` and `_` inside the search keep their
  wildcard meaning, with SQLite's ASCII-only case folding.
* Python's builtin `round` rounds half to even; `pythonRound` mirrors it.
-/

/-- Mirrors the `links` table model: token, teacher, group, creation time. -/
structure Link where
  token : String
  teacher_name : String
  group_name : String
  created_at : Nat
deriving DecidableEq

/-- Mirrors the `grades` table model.  Score columns are rationals, the
surrogate key `id` and the timestamp `created_at` are naturals. -/
structure Grade where
  id : Nat
  token : String
  teacher_name : String
  group_name : String
  student_name : String
  student_id : String
  level : String
  period : String
  participation : ℚ
  homework : ℚ
  oral_test : ℚ
  attendance : ℚ
  questions : ℚ
  total_points : ℚ
  created_at : Nat
  comments : String
deriving DecidableEq

/-- Source: `PASSING_SCORE = float(os.environ.get("PASSING_SCORE", "75"))`. -/
def PASSING_SCORE : ℚ := 75

/-- Source: `RISK_LOW_SCORE = float(os.environ.get("RISK_LOW_SCORE", "70"))`. -/
def RISK_LOW_SCORE : ℚ := 70

/-- Source: `RISK_DROP_POINTS = float(os.environ.get("RISK_DROP_POINTS", "10"))`. -/
def RISK_DROP_POINTS : ℚ := 10

/-- Source: `DEFAULT_PERIOD = os.environ.get("DEFAULT_PERIOD", "2026-1")`. -/
def DEFAULT_PERIOD : String := "2026-1"

/-- Python `str.strip()`: remove leading and trailing whitespace.  (Defined
over the character list so that it evaluates inside the kernel.) -/
def pyStrip (s : String) : String :=
  String.mk
    (((s.data.dropWhile Char.isWhitespace).reverse.dropWhile
        Char.isWhitespace).reverse)

/-- ASCII lower-casing of one character, the case folding SQLite applies to
the `LIKE`/`ilike` operator used for the search filter. -/
def asciiLower (c : Char) : Char :=
  if 'A' ≤ c ∧ c ≤ 'Z' then Char.ofNat (c.toNat + 32) else c

/-- Spec-side notion (from the spec words, not the source): does `hay`
start with `needle` literally? -/
def listStartsWith : List Char → List Char → Bool
  | _, [] => true
  | [], _ :: _ => false
  | c :: cs, d :: ds => c == d && listStartsWith cs ds

/-- Spec-side notion (from the spec words, not the source): does `hay`
contain `needle` as a literal contiguous substring?  This is the spec's
reading of the search filter; the source's `ilike` is `likeMatch` below. -/
def listContainsSub (needle : List Char) : List Char → Bool
  | [] => needle.isEmpty
  | c :: t => listStartsWith (c :: t) needle || listContainsSub needle t

/-- One SQL `%` wildcard step: try to match the continuation `f` on every
suffix of the string, including the string itself and the empty suffix. -/
def likeStar (f : List Char → Bool) : List Char → Bool
  | [] => f []
  | c :: t => f (c :: t) || likeStar f t

/-- SQL `LIKE` pattern matching as SQLite evaluates it: `%` matches any
(possibly empty) character sequence, `_` matches exactly one character,
every other pattern character matches itself.  Callers case-fold both
sides first, which is SQLite's ASCII-only case-insensitivity. -/
def likeMatch : List Char → List Char → Bool
  | [], s => s.isEmpty
  | p :: ps, s =>
    if p = '%' then likeStar (likeMatch ps) s
    else
      match s with
      | [] => false
      | c :: t => (p = '_' || p == c) && likeMatch ps t

/-- Source: `column.ilike("%" + search + "%")` with the raw, unescaped
search string interpolated into the pattern: `%` and `_` inside `search`
keep their SQL wildcard meaning, and matching is ASCII-case-insensitive. -/
def ciContains (hay needle : String) : Bool :=
  likeMatch ('%' :: needle.data.map asciiLower ++ ['%'])
    (hay.data.map asciiLower)

/-- Python's builtin `round` to an integer: round half to even. -/
def pythonRound (x : ℚ) : ℤ :=
  if x - ⌊x⌋ < 1 / 2 then ⌊x⌋
  else if 1 / 2 < x - ⌊x⌋ then ⌊x⌋ + 1
  else if 2 ∣ ⌊x⌋ then ⌊x⌋ else ⌊x⌋ + 1

/-- Source: `def pass_status(score): return "PASSED" if score >= PASSING_SCORE else
"FAILED"` with the process-wide threshold passed explicitly. -/
def pass_status (passing score : ℚ) : String :=
  if score ≥ passing then "PASSED" else "FAILED"

/-- Source: `def safe_float(v, field, min_v, max_v)`: parse, then range-check with
`if n < min_v or n > max_v`; raising `ValueError` is modelled by
`Except.error` carrying the message. -/
def safe_float (v : Option ℚ) (field : String) (min_v max_v : ℚ) :
    Except String ℚ :=
  match v with
  | none => .error (field ++ " must be a number.")
  | some n =>
    if n < min_v ∨ n > max_v then
      .error (field ++ " must be between " ++ toString min_v ++ " and " ++
        toString max_v ++ ".")
    else .ok n

/-- Source: `POST /create-link`: the handler strips both form fields and
unconditionally inserts a new `Link`; there is no emptiness check and no
error path.  `token` and `now` stand for `secrets.token_urlsafe(16)` and
`datetime.datetime.utcnow().isoformat()`. -/
def create_link (links : List Link) (teacher_raw group_raw token : String)
    (now : Nat) : List Link :=
  let teacher := pyStrip teacher_raw
  let group := pyStrip group_raw
  links ++ [{ token := token, teacher_name := teacher, group_name := group,
              created_at := now }]

/-- The submission form payload of `POST /entry/<token>`: identity fields,
the five numeric component fields (as parse results) and the comment. -/
structure EntryForm where
  student_name : String
  student_id : String
  level : String
  period : String
  participation : Option ℚ
  homework : Option ℚ
  oral_test : Option ℚ
  attendance : Option ℚ
  questions : Option ℚ
  comments : String

/-- One numeric component together with the field label and the closed
bounds the handler passes to `safe_float`. -/
structure FieldCheck where
  raw : Option ℚ
  field : String
  lo : ℚ
  hi : ℚ
deriving DecidableEq

/-- The five component validations of the entry handler, in the order the
source performs them. -/
def componentChecks (form : EntryForm) : List FieldCheck :=
  [⟨form.participation, "Participation", 0, 30⟩,
   ⟨form.homework, "Homework", 0, 10⟩,
   ⟨form.oral_test, "Oral Test", 0, 40⟩,
   ⟨form.attendance, "Attendance", 0, 10⟩,
   ⟨form.questions, "Questions", 0, 10⟩]

/-- Run one component validation. -/
def checkOne (c : FieldCheck) : Except String ℚ :=
  safe_float c.raw c.field c.lo c.hi

/-- The validation-and-build part of the `POST /entry/<token>` handler:
the five `safe_float` calls in source order (the first `ValueError`
aborts, exactly as the `try`/`except` does), then the total as the sum of
the five validated values and the `Grade` row built from the resolved
link, the stripped identity fields and the current time.  `nid` is the
surrogate key the store assigns. -/
def entry_post (link : Link) (tok : String) (now nid : Nat)
    (form : EntryForm) : Except String Grade :=
  match safe_float form.participation "Participation" 0 30 with
  | .error e => .error e
  | .ok p =>
  match safe_float form.homework "Homework" 0 10 with
  | .error e => .error e
  | .ok h =>
  match safe_float form.oral_test "Oral Test" 0 40 with
  | .error e => .error e
  | .ok o =>
  match safe_float form.attendance "Attendance" 0 10 with
  | .error e => .error e
  | .ok a =>
  match safe_float form.questions "Questions" 0 10 with
  | .error e => .error e
  | .ok qv =>
    .ok { id := nid, token := tok,
          teacher_name := link.teacher_name,
          group_name := link.group_name,
          student_name := pyStrip form.student_name,
          student_id := pyStrip form.student_id,
          level := pyStrip form.level,
          period := if pyStrip form.period = "" then DEFAULT_PERIOD
                    else pyStrip form.period,
          participation := p, homework := h, oral_test := o,
          attendance := a, questions := qv,
          total_points := p + h + o + a + qv,
          created_at := now,
          comments := pyStrip form.comments }

/-- The `Grade` row the entry handler builds once the five components have
validated to `p`, `h`, `o`, `a`, `qv`. -/
def entryRow (link : Link) (tok : String) (now nid : Nat)
    (form : EntryForm) (p h o a qv : ℚ) : Grade :=
  { id := nid, token := tok,
    teacher_name := link.teacher_name,
    group_name := link.group_name,
    student_name := pyStrip form.student_name,
    student_id := pyStrip form.student_id,
    level := pyStrip form.level,
    period := if pyStrip form.period = "" then DEFAULT_PERIOD
              else pyStrip form.period,
    participation := p, homework := h, oral_test := o,
    attendance := a, questions := qv,
    total_points := p + h + o + a + qv,
    created_at := now,
    comments := pyStrip form.comments }

/-- Effect of one `POST /entry/<token>` on the grades table: on success the
handler commits exactly the built row (`db.session.add` + `commit`); a
`ValueError` re-renders the form and nothing is written. -/
def entry_store (store : List Grade) (link : Link) (tok : String)
    (now nid : Nat) (form : EntryForm) : List Grade :=
  match entry_post link tok now nid form with
  | .ok g => store ++ [g]
  | .error _ => store

/-- A student's records in chronological order:
`sorted(recs, key=lambda x: x.created_at)` applied to the rows grouped
under `r.student_id`. -/
def studentRecords (rows : List Grade) (sid : String) : List Grade :=
  (rows.filter (fun r => r.student_id == sid)).insertionSort
    (fun a b => a.created_at ≤ b.created_at)

/-- The per-student body of the `compute_risk_ids` loop: given the
chronologically sorted records, flag when the latest total is below
`low`, or when there are at least two records and the drop from the
second-to-last to the last exceeds `drop`. -/
def riskFlag (low drop : ℚ) (recs : List Grade) : Bool :=
  match recs.getLast? with
  | none => false
  | some latest =>
    if latest.total_points < low then true
    else if 2 ≤ recs.length then
      match recs.dropLast.getLast? with
      | some prev => decide (prev.total_points - latest.total_points > drop)
      | none => false
    else false

/-- Source: `def compute_risk_ids(base_rows)`: group by `student_id` (the dict of
first-occurrence keys), sort each group by `created_at`, and collect the
flagged ids.  The Python function returns a set; here the returned list
of distinct ids is read as that set. -/
def compute_risk_ids (low drop : ℚ) (rows : List Grade) : List String :=
  ((rows.map Grade.student_id).dedup).filter
    (fun sid => riskFlag low drop (studentRecords rows sid))

/-- Source: `Grade.query.filter(Grade.student_id == sid).order_by(Grade.id.desc())
.first()`: the student's record of highest surrogate id. -/
def latest_for (rows : List Grade) (sid : String) : Option Grade :=
  ((rows.filter (fun r => r.student_id == sid)).insertionSort
    (fun a b => b.id ≤ a.id)).head?

/-- The dashboard's at-risk list: for each flagged id take the record of
highest surrogate id (skipping ids with no record, the `if latest:`
guard), then `sorted(at_risk, key=lambda x: x.total_points)`. -/
def at_risk_list (low drop : ℚ) (rows : List Grade) : List Grade :=
  ((compute_risk_ids low drop rows).filterMap (latest_for rows)).insertionSort
    (fun a b => a.total_points ≤ b.total_points)

/-- Source: `total_records = len(rows)`. -/
def total_records (rows : List Grade) : Nat := rows.length

/-- Source: `average = (sum(r.total_points for r in rows) / total_records) if
total_records else 0.0`. -/
def average_points (rows : List Grade) : ℚ :=
  if rows.length = 0 then 0
  else (rows.map Grade.total_points).sum / (rows.length : ℚ)

/-- Source: `passed_count = sum(1 for r in rows if r.total_points >= PASSING_SCORE)`. -/
def passed_count (passing : ℚ) (rows : List Grade) : Nat :=
  (rows.filter (fun r => decide (r.total_points ≥ passing))).length

/-- Source: `failed_count = total_records - passed_count`. -/
def failed_count (passing : ℚ) (rows : List Grade) : Nat :=
  total_records rows - passed_count passing rows

/-- Source: `teacher_count = len(set(r.teacher_name for r in rows)) if rows else 0`
(the guard is redundant: the set of an empty iterable is empty). -/
def teacher_count (rows : List Grade) : Nat :=
  ((rows.map Grade.teacher_name).dedup).length

/-- Source: `group_count = len(set(r.group_name for r in rows)) if rows else 0`. -/
def group_count (rows : List Grade) : Nat :=
  ((rows.map Grade.group_name).dedup).length

/-- Source: `pass_ratio = int(round((passed_count / total_records) * 100)) if
total_records else 0`. -/
def pass_percent (passing : ℚ) (rows : List Grade) : ℤ :=
  if rows.length = 0 then 0
  else pythonRound ((passed_count passing rows : ℚ) / (rows.length : ℚ) * 100)

/-- The four optional report/export filters, already stripped the way the
handlers strip the query parameters. -/
structure Filters where
  teacher : String
  group : String
  period : String
  search : String

/-- One row against the filter conjunction: each non-empty filter adds its
`q.filter(...)` clause — exact match for teacher/group/period, and the
case-insensitive substring match on name or id for `search`. -/
def row_matches (f : Filters) (r : Grade) : Bool :=
  (f.teacher == "" || r.teacher_name == f.teacher) &&
  (f.group == "" || r.group_name == f.group) &&
  (f.period == "" || r.period == f.period) &&
  (f.search == "" ||
    (ciContains r.student_name f.search || ciContains r.student_id f.search))

/-- Source: `GET /report`: strip the four query parameters, apply the filter
clauses, and order by `Grade.id.desc()`.  A pure read: the grades table
is not modified. -/
def report_rows (teacher group period search : String)
    (rows : List Grade) : List Grade :=
  (rows.filter (row_matches ⟨pyStrip teacher, pyStrip group, pyStrip period,
      pyStrip search⟩)).insertionSort (fun a b => b.id ≤ a.id)

/-- Source: `GET /export/pdf`: same stripped parameters and filter clauses as the
report, ordered by `Grade.total_points.desc()`.  Also a pure read. -/
def export_pdf_rows (teacher group period search : String)
    (rows : List Grade) : List Grade :=
  (rows.filter (row_matches ⟨pyStrip teacher, pyStrip group, pyStrip period,
      pyStrip search⟩)).insertionSort
    (fun a b => b.total_points ≤ a.total_points)

/-! ## Concrete fixtures used by the witness theorems -/

/-- A grade row with the fields the claims inspect; the remaining columns
are fixed innocuous values. -/
def gW (i : Nat) (sid : String) (total : ℚ) (t : Nat) : Grade :=
  { id := i, token := "tk", teacher_name := "T", group_name := "G",
    student_name := "S", student_id := sid, level := "L", period := "P",
    participation := 0, homework := 0, oral_test := 0, attendance := 0,
    questions := 0, total_points := total, created_at := t, comments := "" }

/-- A single student with one low record (total 65 below the default
cutoff 70). -/
def rowsLow : List Grade := [gW 1 "c" 65 1]

/-- A three-record history with totals 90, 75, 80: the early 15-point drop
is older than the last two records. -/
def rowsHist : List Grade := [gW 1 "s" 90 1, gW 2 "s" 75 2, gW 3 "s" 80 3]

/-- The same history with the oldest record removed. -/
def rowsHist2 : List Grade := [gW 2 "s" 75 2, gW 3 "s" 80 3]

/-- Two flagged students (65 and 40, both below 70) plus a safe one. -/
def rowsDash : List Grade :=
  [gW 1 "a" 65 1, gW 2 "b" 40 1, gW 3 "d" 95 1]

/-- Two rows (80 and 70 against threshold 75). -/
def rowsAgg : List Grade := [gW 1 "a" 80 1, gW 2 "b" 70 2]

/-- The spec's worked scenario: components 28, 9, 35, 10, 8. -/
def form90 : EntryForm :=
  { student_name := "Ana", student_id := "A1", level := "L1", period := "",
    participation := some 28, homework := some 9, oral_test := some 35,
    attendance := some 10, questions := some 8, comments := "" }

/-- A link fixture for the entry witnesses. -/
def linkW : Link :=
  { token := "tok", teacher_name := "T", group_name := "G", created_at := 0 }

/-- A form with participation 31, outside its bound [0, 30]; the other
components are valid. -/
def form31 : EntryForm :=
  { student_name := "Ana", student_id := "A1", level := "L1", period := "",
    participation := some 31, homework := some 9, oral_test := some 35,
    attendance := some 10, questions := some 8, comments := "" }

/-- A row whose student name is `"abc"` and student id `"a1"`: neither
contains the text `"a_c"` literally, but the LIKE pattern `%a_c%` matches
`"abc"`. -/
def gPat : Grade :=
  { id := 1, token := "tk", teacher_name := "T", group_name := "G",
    student_name := "abc", student_id := "a1", level := "L", period := "P",
    participation := 0, homework := 0, oral_test := 0, attendance := 0,
    questions := 0, total_points := 80, created_at := 1, comments := "" }

/-! ## Helper lemmas -/

theorem mem_studentRecords {rows : List Grade} {sid : String} {r : Grade} :
    r ∈ studentRecords rows sid ↔ r ∈ rows ∧ r.student_id = sid := by
  unfold studentRecords
  rw [List.mem_insertionSort, List.mem_filter]
  simp

theorem studentRecords_ne_nil_iff {rows : List Grade} {sid : String} :
    studentRecords rows sid ≠ [] ↔ ∃ r ∈ rows, r.student_id = sid := by
  constructor
  · intro h
    rcases List.exists_mem_of_ne_nil _ h with ⟨r, hr⟩
    rcases mem_studentRecords.mp hr with ⟨h1, h2⟩
    exact ⟨r, h1, h2⟩
  · rintro ⟨r, hr, hsid⟩ hnil
    have : r ∈ studentRecords rows sid := mem_studentRecords.mpr ⟨hr, hsid⟩
    simp [hnil] at this

theorem riskFlag_iff (low drop : ℚ) (recs : List Grade) :
    riskFlag low drop recs = true ↔
      ∃ latest, recs.getLast? = some latest ∧
        (latest.total_points < low ∨
          (2 ≤ recs.length ∧
            ∃ prev, recs.dropLast.getLast? = some prev ∧
              prev.total_points - latest.total_points > drop)) := by
  unfold riskFlag
  cases hL : recs.getLast? with
  | none => simp
  | some latest =>
    by_cases hlow : latest.total_points < low
    · simp [hlow]
    · by_cases hlen : 2 ≤ recs.length
      · cases hP : recs.dropLast.getLast? with
        | none =>
          exfalso
          have hd : recs.dropLast ≠ [] := by
            intro hnil
            have := List.length_dropLast recs
            rw [hnil] at this
            simp at this
            omega
          exact hd (List.getLast?_eq_none_iff.mp hP)
        | some prev => simp [hlow, hlen, hP]
      · simp [hlow, hlen]

theorem mem_compute_risk_ids {low drop : ℚ} {rows : List Grade}
    {sid : String} :
    sid ∈ compute_risk_ids low drop rows ↔
      (∃ r ∈ rows, r.student_id = sid) ∧
      riskFlag low drop (studentRecords rows sid) = true := by
  unfold compute_risk_ids
  rw [List.mem_filter, List.mem_dedup, List.mem_map]


/-! ## Claim theorems -/

/-- Claim C4: `pass_status` returns `"PASSED"` exactly when the total is at
least the configured passing threshold and `"FAILED"` otherwise; the
boundary `score = passing` is classified `"PASSED"`. -/
theorem pass_status_iff (passing score : ℚ) :
    (pass_status passing score = "PASSED" ↔ score ≥ passing) ∧
    (pass_status passing score = "FAILED" ↔ score < passing) ∧
    pass_status passing passing = "PASSED" := by
  unfold pass_status
  refine ⟨?_, ?_, by simp⟩
  · by_cases h : score ≥ passing <;> simp [h]
  · by_cases h : score ≥ passing <;> simp [h, lt_iff_not_ge]

/-- Claim C8, counterexample: a create-link request whose teacher field
trims to the empty string does not fail and does create a Link — the
handler performs no validation.  Posting teacher `" "` and group `"G1"`
to an empty store yields a store holding one link whose trimmed teacher
name is empty, where the claim asserts failure and no created Link. -/
theorem create_link_no_validation_cex :
    pyStrip " " = "" ∧
    create_link [] " " "G1" "tok" 0 =
      [{ token := "tok", teacher_name := "", group_name := "G1",
         created_at := 0 }] := by
  exact ⟨by decide, by decide⟩

/-- Claim C8, amended: `create_link` trims both name fields and always
appends exactly one Link built from the trimmed values; it performs no
emptiness validation and has no error conditions, even when a trimmed
field is empty. -/
theorem create_link_always_appends (links : List Link)
    (teacher_raw group_raw token : String) (now : Nat) :
    create_link links teacher_raw group_raw token now =
      links ++ [{ token := token, teacher_name := pyStrip teacher_raw,
                  group_name := pyStrip group_raw, created_at := now }] := rfl

/-- Claim C1: a student id is flagged by `compute_risk_ids` iff the student
has at least one row and, on the student's rows sorted ascending by
`created_at`, either the latest total is strictly below `low`, or there
are at least two rows and the second-to-last total exceeds the latest by
strictly more than `drop`.  Strict inequalities make both boundary cases
(latest exactly `low`, drop exactly `drop`) unflagged, and a single-record
student can only satisfy the first disjunct. -/
theorem risk_detection_iff (low drop : ℚ) (rows : List Grade)
    (sid : String) :
    sid ∈ compute_risk_ids low drop rows ↔
      (∃ r ∈ rows, r.student_id = sid) ∧
      ∃ latest, (studentRecords rows sid).getLast? = some latest ∧
        (latest.total_points < low ∨
          (2 ≤ (studentRecords rows sid).length ∧
            ∃ prev, (studentRecords rows sid).dropLast.getLast? = some prev ∧
              prev.total_points - latest.total_points > drop)) := by
  rw [mem_compute_risk_ids, riskFlag_iff]

/-- Claim C9: `compute_risk_ids` only returns student ids that occur in the
input rows, and returns the empty set on the empty row set. -/
theorem compute_risk_ids_subset (low drop : ℚ) (rows : List Grade) :
    (∀ sid ∈ compute_risk_ids low drop rows,
       ∃ r ∈ rows, r.student_id = sid) ∧
    compute_risk_ids low drop [] = [] := by
  refine ⟨fun sid hsid => (mem_compute_risk_ids.mp hsid).1, rfl⟩

/-- Claim C9 witness: on the one-row store `rowsLow` the id `"c"` is
flagged, and the theorem instantiated there produces the row carrying it. -/
theorem compute_risk_ids_subset_witness :
    ∃ r ∈ rowsLow, r.student_id = "c" :=
  (compute_risk_ids_subset 70 10 rowsLow).1 "c" (by decide)

theorem riskFlag_last_two (low drop : ℚ) (pre : List Grade) (a b : Grade) :
    riskFlag low drop (pre ++ [a, b]) = riskFlag low drop [a, b] := by
  have hab : pre ++ [a, b] = (pre ++ [a]) ++ [b] := by simp
  unfold riskFlag
  rw [hab, List.getLast?_concat, List.dropLast_concat, List.getLast?_concat]
  have hlen : 2 ≤ ((pre ++ [a]) ++ [b]).length := by
    simp [List.length_append]
  simp [hlen]

/-- Claim C10: when a student's sorted histories in two row sets end in the
same two records, the risk verdict for that student is the same in both:
the drop rule inspects only the last two records, so altering or removing
older records cannot change the flag.  (`hlatest` is the claim's guard
that the latest total is not below the low-score cutoff; the conclusion
holds as proved even without it.) -/
theorem risk_ignores_older_records (low drop : ℚ)
    (rows rows' : List Grade) (sid : String) (pre pre' : List Grade)
    (a b : Grade)
    (hlatest : low ≤ b.total_points)
    (h : studentRecords rows sid = pre ++ [a, b])
    (h' : studentRecords rows' sid = pre' ++ [a, b]) :
    sid ∈ compute_risk_ids low drop rows ↔
      sid ∈ compute_risk_ids low drop rows' := by
  have e1 : ∃ r ∈ rows, r.student_id = sid :=
    studentRecords_ne_nil_iff.mp (by rw [h]; simp)
  have e2 : ∃ r ∈ rows', r.student_id = sid :=
    studentRecords_ne_nil_iff.mp (by rw [h']; simp)
  rw [mem_compute_risk_ids, mem_compute_risk_ids, h, h',
    riskFlag_last_two, riskFlag_last_two]
  simp [e1, e2]



/-- Claim C10 witness: for the history [90, 75, 80] (latest 80 at least the
cutoff 70), removing the old 90 record does not change the verdict, and
the student is in fact not flagged despite the earlier 15-point drop. -/
theorem risk_ignores_older_witness :
    ("s" ∈ compute_risk_ids 70 10 rowsHist ↔
      "s" ∈ compute_risk_ids 70 10 rowsHist2) ∧
    "s" ∉ compute_risk_ids 70 10 rowsHist := by
  constructor
  · exact risk_ignores_older_records 70 10 rowsHist rowsHist2 "s"
      [gW 1 "s" 90 1] [] (gW 2 "s" 75 2) (gW 3 "s" 80 3)
      (by decide) (by decide) (by decide)
  · intro hmem
    have := mem_compute_risk_ids.mp hmem
    norm_num [rowsHist, gW, studentRecords, riskFlag, List.insertionSort,
      List.orderedInsert, List.filter] at this

theorem latest_for_spec {rows : List Grade} {sid : String} {g : Grade}
    (h : latest_for rows sid = some g) :
    g ∈ rows ∧ g.student_id = sid ∧
      ∀ r' ∈ rows, r'.student_id = sid → r'.id ≤ g.id := by
  haveI htot : IsTotal Grade (fun x y : Grade => y.id ≤ x.id) :=
    ⟨fun x y => (le_total y.id x.id)⟩
  haveI htrans : IsTrans Grade (fun x y : Grade => y.id ≤ x.id) :=
    ⟨fun x y z hxy hyz => le_trans hyz hxy⟩
  unfold latest_for at h
  cases hs : (rows.filter (fun r => r.student_id == sid)).insertionSort
      (fun x y : Grade => y.id ≤ x.id) with
  | nil => rw [hs] at h; simp at h
  | cons x t =>
    rw [hs] at h
    simp only [List.head?_cons, Option.some.injEq] at h
    rw [h] at hs
    have hsorted : List.Sorted (fun x y : Grade => y.id ≤ x.id)
        ((rows.filter (fun r => r.student_id == sid)).insertionSort
          (fun x y : Grade => y.id ≤ x.id)) :=
      List.sorted_insertionSort _ _
    rw [hs] at hsorted
    have hmax : ∀ y ∈ t, y.id ≤ g.id := by
      intro y hy
      exact (List.pairwise_cons.mp hsorted).1 y hy
    have hgin : g ∈ rows.filter (fun r => r.student_id == sid) := by
      have hg1 : g ∈ (rows.filter (fun r => r.student_id == sid)).insertionSort
          (fun x y : Grade => y.id ≤ x.id) := by
        rw [hs]; exact List.mem_cons_self _ _
      rw [List.mem_insertionSort] at hg1
      exact hg1
    have hg := List.mem_filter.mp hgin
    refine ⟨hg.1, by simpa using hg.2, ?_⟩
    intro r' hr' hsid'
    have hr'm : r' ∈ (rows.filter (fun r => r.student_id == sid)).insertionSort
        (fun x y : Grade => y.id ≤ x.id) := by
      rw [List.mem_insertionSort]
      exact List.mem_filter.mpr ⟨hr', by simpa using hsid'⟩
    rw [hs] at hr'm
    rcases List.mem_cons.mp hr'm with rfl | hmem
    · exact le_refl _
    · exact hmax _ hmem

theorem latest_for_isSome {rows : List Grade} {sid : String}
    (h : ∃ r ∈ rows, r.student_id = sid) :
    ∃ g, latest_for rows sid = some g := by
  unfold latest_for
  cases hs : (rows.filter (fun r => r.student_id == sid)).insertionSort
      (fun x y : Grade => y.id ≤ x.id) with
  | nil =>
    exfalso
    rcases h with ⟨r, hr, hsid⟩
    have hmem : r ∈ (rows.filter (fun r => r.student_id == sid)).insertionSort
        (fun x y : Grade => y.id ≤ x.id) := by
      rw [List.mem_insertionSort]
      exact List.mem_filter.mpr ⟨hr, by simpa using hsid⟩
    rw [hs] at hmem
    simp at hmem
  | cons x t => exact ⟨x, rfl⟩

theorem filterMap_latest_map_sid (rows : List Grade) :
    ∀ (l : List String),
      (∀ sid ∈ l, ∃ r ∈ rows, r.student_id = sid) →
      (l.filterMap (latest_for rows)).map Grade.student_id = l := by
  intro l
  induction l with
  | nil => intro _; rfl
  | cons sid l ih =>
    intro hall
    obtain ⟨g, hg⟩ := latest_for_isSome (hall sid (List.mem_cons_self _ _))
    have hgsid : g.student_id = sid := (latest_for_spec hg).2.1
    rw [List.filterMap_cons, hg, List.map_cons, hgsid,
      ih (fun s hs => hall s (List.mem_cons_of_mem _ hs))]

/-- Claim C6: the dashboard's at-risk list carries exactly one record per
flagged student id (its projection to student ids is a duplicate-free
permutation of `compute_risk_ids`), each listed record comes from the
store and is that student's record of highest surrogate id, and the list
is sorted ascending by `total_points`. -/
theorem at_risk_list_spec (low drop : ℚ) (rows : List Grade) :
    ((at_risk_list low drop rows).map Grade.student_id).Perm
        (compute_risk_ids low drop rows) ∧
    ((at_risk_list low drop rows).map Grade.student_id).Nodup ∧
    (∀ r ∈ at_risk_list low drop rows,
       r ∈ rows ∧ r.student_id ∈ compute_risk_ids low drop rows ∧
       ∀ r' ∈ rows, r'.student_id = r.student_id → r'.id ≤ r.id) ∧
    (at_risk_list low drop rows).Pairwise
      (fun x y => x.total_points ≤ y.total_points) := by
  haveI htot : IsTotal Grade (fun x y : Grade =>
      x.total_points ≤ y.total_points) := ⟨fun x y => le_total _ _⟩
  haveI htrans : IsTrans Grade (fun x y : Grade =>
      x.total_points ≤ y.total_points) :=
    ⟨fun x y z hxy hyz => le_trans hxy hyz⟩
  have hall : ∀ sid ∈ compute_risk_ids low drop rows,
      ∃ r ∈ rows, r.student_id = sid :=
    fun sid h => (mem_compute_risk_ids.mp h).1
  have hmapeq : (((compute_risk_ids low drop rows).filterMap
      (latest_for rows)).map Grade.student_id) =
      compute_risk_ids low drop rows :=
    filterMap_latest_map_sid rows _ hall
  have hperm : ((at_risk_list low drop rows).map Grade.student_id).Perm
      (compute_risk_ids low drop rows) := by
    unfold at_risk_list
    refine ((List.perm_insertionSort
      (fun x y : Grade => x.total_points ≤ y.total_points) _).map
      Grade.student_id).trans ?_
    rw [hmapeq]
  have hnodup : (compute_risk_ids low drop rows).Nodup :=
    List.Nodup.filter _ (List.nodup_dedup _)
  refine ⟨hperm, hperm.nodup_iff.mpr hnodup, ?_, ?_⟩
  · intro r hr
    unfold at_risk_list at hr
    rw [List.mem_insertionSort, List.mem_filterMap] at hr
    obtain ⟨sid, hsid, hlat⟩ := hr
    obtain ⟨hin, hgsid, hmax⟩ := latest_for_spec hlat
    refine ⟨hin, ?_, ?_⟩
    · rw [hgsid]; exact hsid
    · intro r' hr' hsid'
      exact hmax r' hr' (by rw [hsid', hgsid])
  · exact List.sorted_insertionSort _ _


/-- Claim C6 witness: the theorem instantiated on `rowsDash`. -/
theorem at_risk_list_witness :
    ((at_risk_list 70 10 rowsDash).map Grade.student_id).Perm
      (compute_risk_ids 70 10 rowsDash) :=
  (at_risk_list_spec 70 10 rowsDash).1

/-- Claim C5: on any row set the dashboard summary satisfies: the record
count is the list length; the average is 0 on the empty set and otherwise
the arithmetic mean of `total_points`; the passed count is the number of
rows with total at least the threshold; failed and passed counts add up
to the record count; teacher/group counts are the cardinalities of the
sets of distinct names; and the pass percentage is 0 on the empty set and
otherwise `round(passed / total * 100)` with Python rounding. -/
theorem aggregation_summary (passing : ℚ) (rows : List Grade) :
    total_records rows = rows.length ∧
    (rows = [] → average_points rows = 0) ∧
    (rows ≠ [] →
      average_points rows * (rows.length : ℚ) =
        (rows.map Grade.total_points).sum) ∧
    passed_count passing rows =
      rows.countP (fun r => decide (passing ≤ r.total_points)) ∧
    failed_count passing rows + passed_count passing rows =
      total_records rows ∧
    teacher_count rows = (rows.map Grade.teacher_name).toFinset.card ∧
    group_count rows = (rows.map Grade.group_name).toFinset.card ∧
    (rows = [] → pass_percent passing rows = 0) ∧
    (rows ≠ [] →
      pass_percent passing rows =
        pythonRound
          ((passed_count passing rows : ℚ) / (rows.length : ℚ) * 100)) := by
  refine ⟨rfl, ?_, ?_, ?_, ?_, ?_, ?_, ?_, ?_⟩
  · intro h; simp [average_points, h]
  · intro h
    have hpos : 0 < rows.length := List.length_pos.mpr h
    have hlen : rows.length ≠ 0 := by omega
    have hcast : ((rows.length : ℚ)) ≠ 0 := by
      exact_mod_cast hlen
    unfold average_points
    rw [if_neg hlen]
    exact div_mul_cancel₀ _ hcast
  · unfold passed_count
    rw [List.countP_eq_length_filter]
  · have hle : passed_count passing rows ≤ total_records rows :=
      List.length_filter_le _ _
    unfold failed_count
    omega
  · rw [List.card_toFinset]; rfl
  · rw [List.card_toFinset]; rfl
  · intro h; simp [pass_percent, h]
  · intro h
    have hpos : 0 < rows.length := List.length_pos.mpr h
    have hlen : rows.length ≠ 0 := by omega
    unfold pass_percent
    rw [if_neg hlen]


/-- Claim C5 witness: the theorem instantiated on `rowsAgg` (mean 75, one
passed of two) and on the empty row set (average and percentage 0). -/
theorem aggregation_witness :
    average_points rowsAgg * ((rowsAgg.length : ℚ)) =
      (rowsAgg.map Grade.total_points).sum ∧
    average_points [] = 0 ∧
    pass_percent 75 [] = 0 ∧
    failed_count 75 rowsAgg + passed_count 75 rowsAgg =
      total_records rowsAgg := by
  refine ⟨(aggregation_summary 75 rowsAgg).2.2.1 (by simp [rowsAgg]),
    (aggregation_summary 75 ([] : List Grade)).2.1 rfl,
    (aggregation_summary 75 ([] : List Grade)).2.2.2.2.2.2.2.1 rfl,
    (aggregation_summary 75 rowsAgg).2.2.2.2.1⟩

theorem likeMatch_wild_nil (s : List Char) :
    likeMatch ['%'] s = true := by
  induction s with
  | nil => rfl
  | cons c t ih =>
    show likeStar (likeMatch []) (c :: t) = true
    show (likeMatch [] (c :: t) || likeStar (likeMatch []) t) = true
    have ht : likeStar (likeMatch []) t = true := ih
    rw [ht, Bool.or_true]

theorem likeMatch_literal_wild (p : List Char)
    (hp : ∀ a ∈ p, a ≠ '%' ∧ a ≠ '_') (s : List Char) :
    likeMatch (p ++ ['%']) s = listStartsWith s p := by
  induction p generalizing s with
  | nil => rw [List.nil_append, likeMatch_wild_nil]; cases s <;> rfl
  | cons a p' ih =>
    obtain ⟨ha1, ha2⟩ := hp a (List.mem_cons_self _ _)
    have hp' : ∀ b ∈ p', b ≠ '%' ∧ b ≠ '_' :=
      fun b hb => hp b (List.mem_cons_of_mem _ hb)
    cases s with
    | nil =>
      show likeMatch (a :: (p' ++ ['%'])) [] = false
      simp [likeMatch, ha1]
    | cons c t =>
      show likeMatch (a :: (p' ++ ['%'])) (c :: t) =
        (c == a && listStartsWith t p')
      rw [show likeMatch (a :: (p' ++ ['%'])) (c :: t) =
          ((a = '_' || a == c) && likeMatch (p' ++ ['%']) t) by
            simp [likeMatch, ha1]]
      rw [ih hp' t]
      have hau : (a = '_' : Bool) = false := by
        simp [ha2]
      rw [hau, Bool.false_or]
      have hcomm : (a == c) = (c == a) := by
        by_cases h : a = c <;> simp [h, eq_comm]
      rw [hcomm]

theorem likeMatch_wild_contains (p : List Char)
    (hp : ∀ a ∈ p, a ≠ '%' ∧ a ≠ '_') (s : List Char) :
    likeMatch ('%' :: (p ++ ['%'])) s = listContainsSub p s := by
  induction s with
  | nil =>
    show likeStar (likeMatch (p ++ ['%'])) [] = listContainsSub p []
    show likeMatch (p ++ ['%']) [] = listContainsSub p []
    rw [likeMatch_literal_wild p hp]
    cases p <;> rfl
  | cons c t ih =>
    show likeStar (likeMatch (p ++ ['%'])) (c :: t) = listContainsSub p (c :: t)
    show (likeMatch (p ++ ['%']) (c :: t) ||
      likeStar (likeMatch (p ++ ['%'])) t) = listContainsSub p (c :: t)
    have ht : likeStar (likeMatch (p ++ ['%'])) t = listContainsSub p t := ih
    rw [likeMatch_literal_wild p hp, ht]
    rfl

theorem ciContains_eq_substring_of_literal (hay needle : String)
    (hp : ∀ a ∈ needle.data.map asciiLower, a ≠ '%' ∧ a ≠ '_') :
    ciContains hay needle =
      listContainsSub (needle.data.map asciiLower)
        (hay.data.map asciiLower) := by
  unfold ciContains
  exact likeMatch_wild_contains _ hp _

/-- Claim C7, counterexample: the claim's search clause is the literal
case-insensitive substring test, but the source interpolates the raw
search string into `ilike("%" + search + "%")`, so `%` and `_` act as SQL
wildcards.  At search `"a_c"` the report returns the row named `"abc"`
(the pattern `%a_c%` matches it, `_` consuming the `b`), although `"a_c"`
is a literal substring of neither the student name `"abc"` nor the
student id `"a1"` — so the returned set is not the set the claim
describes. -/
theorem filtering_substring_cex :
    gPat ∈ report_rows "" "" "" "a_c" [gPat] ∧
    listContainsSub ("a_c".data.map asciiLower)
      ("abc".data.map asciiLower) = false ∧
    listContainsSub ("a_c".data.map asciiLower)
      ("a1".data.map asciiLower) = false := by
  refine ⟨by decide, by decide, by decide⟩

/-- Claim C7, amended: report and PDF export return exactly the rows
satisfying the conjunction of the four optional filters — the two views
contain the same rows with the same multiplicities (each is a permutation
of the filtered store, they differ only in ordering), and a row passes
iff every non-empty stripped filter constrains it: exact teacher, group
and period match, and for the search filter the ASCII-case-insensitive
SQL `LIKE` match of the unescaped pattern `%search%` against student name
or student id (`%` and `_` inside the search act as wildcards; by
`ciContains_eq_substring_of_literal` this is the literal substring match
whenever the search contains no wildcard character).  An empty filter
imposes no constraint, and both views are pure reads of `rows`. -/
theorem filtering_iff (teacher group period search : String)
    (rows : List Grade) (r : Grade) :
    (report_rows teacher group period search rows).Perm
        (rows.filter (row_matches ⟨pyStrip teacher, pyStrip group,
          pyStrip period, pyStrip search⟩)) ∧
    (export_pdf_rows teacher group period search rows).Perm
        (rows.filter (row_matches ⟨pyStrip teacher, pyStrip group,
          pyStrip period, pyStrip search⟩)) ∧
    (r ∈ report_rows teacher group period search rows ↔
      r ∈ rows ∧
      (pyStrip teacher = "" ∨ r.teacher_name = pyStrip teacher) ∧
      (pyStrip group = "" ∨ r.group_name = pyStrip group) ∧
      (pyStrip period = "" ∨ r.period = pyStrip period) ∧
      (pyStrip search = "" ∨
        ciContains r.student_name (pyStrip search) = true ∨
        ciContains r.student_id (pyStrip search) = true)) ∧
    (r ∈ export_pdf_rows teacher group period search rows ↔
      r ∈ report_rows teacher group period search rows) := by
  have hmem : ∀ q : Grade,
      q ∈ rows.filter (row_matches ⟨pyStrip teacher, pyStrip group,
          pyStrip period, pyStrip search⟩) ↔
        q ∈ rows ∧
        (pyStrip teacher = "" ∨ q.teacher_name = pyStrip teacher) ∧
        (pyStrip group = "" ∨ q.group_name = pyStrip group) ∧
        (pyStrip period = "" ∨ q.period = pyStrip period) ∧
        (pyStrip search = "" ∨
          ciContains q.student_name (pyStrip search) = true ∨
          ciContains q.student_id (pyStrip search) = true) := by
    intro q
    rw [List.mem_filter]
    unfold row_matches
    simp [Bool.and_eq_true, Bool.or_eq_true, and_assoc]
  refine ⟨List.perm_insertionSort _ _, List.perm_insertionSort _ _, ?_, ?_⟩
  · rw [show report_rows teacher group period search rows =
        (rows.filter (row_matches ⟨pyStrip teacher, pyStrip group,
          pyStrip period, pyStrip search⟩)).insertionSort
          (fun a b : Grade => b.id ≤ a.id) from rfl,
      List.mem_insertionSort]
    exact hmem r
  · rw [show export_pdf_rows teacher group period search rows =
        (rows.filter (row_matches ⟨pyStrip teacher, pyStrip group,
          pyStrip period, pyStrip search⟩)).insertionSort
          (fun a b : Grade => b.total_points ≤ a.total_points) from rfl,
      show report_rows teacher group period search rows =
        (rows.filter (row_matches ⟨pyStrip teacher, pyStrip group,
          pyStrip period, pyStrip search⟩)).insertionSort
          (fun a b : Grade => b.id ≤ a.id) from rfl,
      List.mem_insertionSort, List.mem_insertionSort]

theorem safe_float_ok {v : Option ℚ} {n : ℚ} {field : String}
    {min_v max_v : ℚ} (hv : v = some n) (h1 : min_v ≤ n) (h2 : n ≤ max_v) :
    safe_float v field min_v max_v = .ok n := by
  rw [hv]
  have hin : ¬(n < min_v ∨ n > max_v) := by
    rintro (hlt | hgt)
    · exact absurd h1 (not_le.mpr hlt)
    · exact absurd h2 (not_le.mpr hgt)
  simp [safe_float, hin]

theorem passed_count_eq_countP_map (passing : ℚ) (rows : List Grade) :
    passed_count passing rows =
      (rows.map Grade.total_points).countP
        (fun t => decide (t ≥ passing)) := by
  unfold passed_count
  rw [List.countP_map, List.countP_eq_length_filter]
  rfl

/-- Claim C2: (1) a submission whose five components parse and lie within
their closed bounds is accepted, and the persisted row stores the five
validated components unchanged with `total_points` equal to their exact
sum, which lies in [0, 100]; (2) the read side never recomputes the total
from components: the average, passed count and pass percentage are
functions of the stored `total_points` column alone. -/
theorem entry_total_invariant :
    (∀ (link : Link) (tok : String) (now nid : Nat) (form : EntryForm)
        (p h o a qv : ℚ),
      form.participation = some p → 0 ≤ p → p ≤ 30 →
      form.homework = some h → 0 ≤ h → h ≤ 10 →
      form.oral_test = some o → 0 ≤ o → o ≤ 40 →
      form.attendance = some a → 0 ≤ a → a ≤ 10 →
      form.questions = some qv → 0 ≤ qv → qv ≤ 10 →
      ∃ g, entry_post link tok now nid form = .ok g ∧
        g.total_points = p + h + o + a + qv ∧
        0 ≤ g.total_points ∧ g.total_points ≤ 100 ∧
        g.participation = p ∧ g.homework = h ∧ g.oral_test = o ∧
        g.attendance = a ∧ g.questions = qv) ∧
    (∀ (passing : ℚ) (rows rows' : List Grade),
      rows.map Grade.total_points = rows'.map Grade.total_points →
      average_points rows = average_points rows' ∧
      passed_count passing rows = passed_count passing rows' ∧
      pass_percent passing rows = pass_percent passing rows') := by
  constructor
  · intro link tok now nid form p h o a qv hp hp1 hp2 hh hh1 hh2 ho ho1 ho2
      ha ha1 ha2 hq hq1 hq2
    have e1 := @safe_float_ok _ _ "Participation" _ _ hp hp1 hp2
    have e2 := @safe_float_ok _ _ "Homework" _ _ hh hh1 hh2
    have e3 := @safe_float_ok _ _ "Oral Test" _ _ ho ho1 ho2
    have e4 := @safe_float_ok _ _ "Attendance" _ _ ha ha1 ha2
    have e5 := @safe_float_ok _ _ "Questions" _ _ hq hq1 hq2
    refine ⟨entryRow link tok now nid form p h o a qv,
      ?_, rfl, by simp only [entryRow]; linarith,
      by simp only [entryRow]; linarith, rfl, rfl, rfl, rfl, rfl⟩
    unfold entry_post entryRow
    rw [e1, e2, e3, e4, e5]
  · intro passing rows rows' hmap
    have hlen : rows.length = rows'.length := by
      have := congrArg List.length hmap
      simpa using this
    have hsum : (rows.map Grade.total_points).sum =
        (rows'.map Grade.total_points).sum := by rw [hmap]
    have hpc : passed_count passing rows = passed_count passing rows' := by
      rw [passed_count_eq_countP_map, passed_count_eq_countP_map, hmap]
    refine ⟨?_, hpc, ?_⟩
    · unfold average_points
      rw [hlen, hsum]
    · unfold pass_percent
      rw [hlen, hpc]



/-- Claim C2 witness: the scenario submission is accepted with stored total
90 = 28 + 9 + 35 + 10 + 8. -/
theorem entry_total_witness :
    ∃ g, entry_post linkW "tok" 0 1 form90 = .ok g ∧
      g.total_points = 90 := by
  obtain ⟨g, hg, htot, -⟩ :=
    entry_total_invariant.1 linkW "tok" 0 1 form90 28 9 35 10 8
      rfl (by norm_num) (by norm_num)
      rfl (by norm_num) (by norm_num)
      rfl (by norm_num) (by norm_num)
      rfl (by norm_num) (by norm_num)
      rfl (by norm_num) (by norm_num)
  exact ⟨g, hg, by rw [htot]; norm_num⟩

/-- Claim C3: when any of the five component inputs fails to parse or lies
outside its closed bound, the submission fails with the `ValueError` that
`safe_float` raised for one of the five configured field checks (whose
message names the field and, for a range failure, the violated bounds),
and the grades table is left unchanged: no row is written. -/
theorem entry_invalid_rejected (store : List Grade) (link : Link)
    (tok : String) (now nid : Nat) (form : EntryForm)
    (hfail : ∃ c ∈ componentChecks form, ∃ e, checkOne c = .error e) :
    (∃ e, entry_post link tok now nid form = .error e ∧
       ∃ c ∈ componentChecks form, checkOne c = .error e) ∧
    entry_store store link tok now nid form = store := by
  suffices hmain : ∃ e, entry_post link tok now nid form = .error e ∧
      ∃ c ∈ componentChecks form, checkOne c = .error e by
    obtain ⟨e, he, hc⟩ := hmain
    refine ⟨⟨e, he, hc⟩, ?_⟩
    unfold entry_store
    rw [he]
  cases h1 : safe_float form.participation "Participation" 0 30 with
  | error e =>
    refine ⟨e, by unfold entry_post; rw [h1],
      ⟨form.participation, "Participation", 0, 30⟩, by
        simp [componentChecks], by simpa [checkOne] using h1⟩
  | ok p =>
  cases h2 : safe_float form.homework "Homework" 0 10 with
  | error e =>
    refine ⟨e, by unfold entry_post; rw [h1, h2],
      ⟨form.homework, "Homework", 0, 10⟩, by
        simp [componentChecks], by simpa [checkOne] using h2⟩
  | ok h =>
  cases h3 : safe_float form.oral_test "Oral Test" 0 40 with
  | error e =>
    refine ⟨e, by unfold entry_post; rw [h1, h2, h3],
      ⟨form.oral_test, "Oral Test", 0, 40⟩, by
        simp [componentChecks], by simpa [checkOne] using h3⟩
  | ok o =>
  cases h4 : safe_float form.attendance "Attendance" 0 10 with
  | error e =>
    refine ⟨e, by unfold entry_post; rw [h1, h2, h3, h4],
      ⟨form.attendance, "Attendance", 0, 10⟩, by
        simp [componentChecks], by simpa [checkOne] using h4⟩
  | ok a =>
  cases h5 : safe_float form.questions "Questions" 0 10 with
  | error e =>
    refine ⟨e, by unfold entry_post; rw [h1, h2, h3, h4, h5],
      ⟨form.questions, "Questions", 0, 10⟩, by
        simp [componentChecks], by simpa [checkOne] using h5⟩
  | ok qv =>
    exfalso
    obtain ⟨c, hcmem, e, hce⟩ := hfail
    simp only [componentChecks, List.mem_cons, List.not_mem_nil,
      or_false] at hcmem
    rcases hcmem with rfl | rfl | rfl | rfl | rfl <;>
      simp only [checkOne] at hce
    · rw [h1] at hce; exact Except.noConfusion hce
    · rw [h2] at hce; exact Except.noConfusion hce
    · rw [h3] at hce; exact Except.noConfusion hce
    · rw [h4] at hce; exact Except.noConfusion hce
    · rw [h5] at hce; exact Except.noConfusion hce


/-- Claim C3 witness: the out-of-bounds submission `form31` leaves an empty
store empty and produces a validation error. -/
theorem entry_invalid_witness :
    entry_store [] linkW "tok" 0 1 form31 = [] ∧
    ∃ e, entry_post linkW "tok" 0 1 form31 = .error e := by
  obtain ⟨⟨e, he, -⟩, hs⟩ :=
    entry_invalid_rejected [] linkW "tok" 0 1 form31
      ⟨⟨some 31, "Participation", 0, 30⟩, by decide, _, rfl⟩
  exact ⟨hs, e, he⟩
